import Mathlib

/-!
Verification development for the Cloudflare AutoRAG MCP server
(`src/server.ts`).  The TypeScript source is shallowly embedded below:

* JSON values are the inductive `Json`; `JSON.stringify`'s dropping of
  `undefined`-valued properties is modelled by building field lists that
  omit absent optional fields; the exact textual formatting produced by
  `jsonStringify` (whitespace, numeric rendering) is a modelling
  approximation and no theorem depends on it.
* Numbers are modelled as `Rat` (the handlers only pass them through and
  compare nothing, so exact rationals are a faithful carrier for the
  literals involved, e.g. the default score threshold `0.5`).
* The external AutoRAG binding (`env.AI.autorag(...).search/aiSearch`) is
  a `Backend` record whose operations return `Except String _`;
  `Except.error msg` models a rejected promise whose error has message
  `msg`.  Handlers additionally return the list of backend calls they
  issued, so "no backend call is made" is observable.
* JavaScript `undefined` / absent properties are `Option.none`; JSON
  `null` is `Json.null` (for ids, `RpcId.null`).
-/

/-- JSON values (the drained shape of the JS objects the server builds). -/
inductive Json where
  | str (s : String)
  | num (q : Rat)
  | bool (b : Bool)
  | null
  | arr (elems : List Json)
  | obj (fields : List (String × Json))

/-- JavaScript truthiness of a JSON value (`if (x)`): empty string, zero,
`false` and `null` are falsy; arrays and objects are always truthy. -/
def jsonTruthy : Json → Bool
  | .str s => !(s == "")
  | .num q => !(q == 0)
  | .bool b => b
  | .null => false
  | .arr _ => true
  | .obj _ => true

/-- Escape a character for a JSON string literal (model; only the two
characters that would break the quoting are escaped). -/
def escapeChar (c : Char) : String :=
  if c = '\\' then "\\\\"
  else if c = '"' then "\\\""
  else String.singleton c

/-- Quote a string as a JSON string literal (model of `JSON.stringify` on
strings). -/
def quoteString (s : String) : String :=
  "\"" ++ String.join (s.data.map escapeChar) ++ "\""

/-- Render a rational as a JSON number token (model; `JSON.stringify`'s
exact decimal rendering is not load-bearing for any claim). -/
def ratToJsonString (q : Rat) : String :=
  if q.den = 1 then toString q.num else toString q.num ++ "/" ++ toString q.den

mutual

/-- Model of `JSON.stringify` (compact form; the source passes `null, 2`
for pretty-printing, which only changes whitespace). -/
def jsonStringify : Json → String
  | .str s => quoteString s
  | .num q => ratToJsonString q
  | .bool b => if b then "true" else "false"
  | .null => "null"
  | .arr elems => "[" ++ String.intercalate "," (stringifyElems elems) ++ "]"
  | .obj fields => "\x7b" ++ String.intercalate "," (stringifyFields fields) ++ "\x7d"

/-- Stringify the elements of a JSON array. -/
def stringifyElems : List Json → List String
  | [] => []
  | j :: rest => jsonStringify j :: stringifyElems rest

/-- Stringify the fields of a JSON object. -/
def stringifyFields : List (String × Json) → List String
  | [] => []
  | (k, v) :: rest => (quoteString k ++ ":" ++ jsonStringify v) :: stringifyFields rest

end

/-- Zod schema descriptors, as the `zodToJsonSchema` compiler in
`server.ts` distinguishes them (`z.ZodString`, `z.ZodNumber`,
`z.ZodBoolean`, `z.ZodRecord`, `z.ZodObject`, `z.ZodOptional`,
`z.ZodUnion`).  Each carrier of a `.describe(...)` string holds it as an
`Option String`; note that `.describe` applied after `.optional()` puts
the description on the `ZodOptional` wrapper (`descr` below), which the
compiler never reads — it reads `innerType.description`. -/
inductive ZodSchema where
  | zString (descr : Option String)
  | zNumber (descr : Option String)
  | zBoolean (descr : Option String)
  | zRecord (descr : Option String)
  | zObject (shape : List (String × ZodSchema))
  | zOptional (descr : Option String) (inner : ZodSchema)
  | zUnion (options : List ZodSchema)

/-- `{ type: ty, description: d }` with the `description` key omitted when
`d` is `undefined` (as `JSON.stringify` would drop it). -/
def primJson (ty : String) (d : Option String) : Json :=
  match d with
  | some s => .obj [("type", .str ty), ("description", .str s)]
  | none => .obj [("type", .str ty)]

mutual

/-- `WorkersMcpServer.zodToJsonSchema` (src/server.ts lines 133-199):
unions compile to `oneOf`, objects to `{type, properties, required}` via
`compileFields`, bare primitives to `{type, description}`, and anything
else falls through to the `{ type: 'object' }` fallback. -/
def zodToJsonSchema : ZodSchema → Json
  | .zUnion options => .obj [("oneOf", .arr (compileOptions options))]
  | .zObject shape =>
      .obj [("type", .str "object"),
            ("properties", .obj (compileFields shape).1),
            ("required", .arr ((compileFields shape).2.map Json.str))]
  | .zString d => primJson "string" d
  | .zNumber d => primJson "number" d
  | .zBoolean d => primJson "boolean" d
  | .zRecord _ => .obj [("type", .str "object")]
  | .zOptional _ _ => .obj [("type", .str "object")]

/-- The field loop of `zodToJsonSchema` on a `ZodObject`'s shape: returns
the `properties` entries and the `required` list, in field order.  A
field whose shape matches none of the `instanceof` branches (a bare
`ZodUnion`, or a `ZodOptional` wrapping anything but a primitive/record/
object) contributes to neither list. -/
def compileFields : List (String × ZodSchema) → List (String × Json) × List String
  | [] => ([], [])
  | (key, v) :: rest =>
      let tail := compileFields rest
      match v with
      | .zString d => ((key, primJson "string" d) :: tail.1, key :: tail.2)
      | .zNumber d => ((key, primJson "number" d) :: tail.1, key :: tail.2)
      | .zBoolean d => ((key, primJson "boolean" d) :: tail.1, key :: tail.2)
      | .zRecord d => ((key, primJson "object" d) :: tail.1, key :: tail.2)
      | .zObject shape =>
          ((key, zodToJsonSchema (.zObject shape)) :: tail.1, key :: tail.2)
      | .zOptional _ inner =>
          match inner with
          | .zString d => ((key, primJson "string" d) :: tail.1, tail.2)
          | .zNumber d => ((key, primJson "number" d) :: tail.1, tail.2)
          | .zBoolean d => ((key, primJson "boolean" d) :: tail.1, tail.2)
          | .zRecord d => ((key, primJson "object" d) :: tail.1, tail.2)
          | .zObject shape =>
              ((key, zodToJsonSchema (.zObject shape)) :: tail.1, tail.2)
          | _ => (tail.1, tail.2)
      | .zUnion _ => (tail.1, tail.2)

/-- Compile each member of a union, preserving order. -/
def compileOptions : List ZodSchema → List Json
  | [] => []
  | s :: rest => zodToJsonSchema s :: compileOptions rest

end

/-- Whether the field loop of `zodToJsonSchema` pushes a field of this
shape onto `required`: it does so exactly in the primitive, record and
object branches; the `ZodOptional` branch and the (silently skipped)
`ZodUnion` field shape never push. -/
def pushesRequired : ZodSchema → Bool
  | .zString _ => true
  | .zNumber _ => true
  | .zBoolean _ => true
  | .zRecord _ => true
  | .zObject _ => true
  | .zOptional _ _ => false
  | .zUnion _ => false

/-- `ranking_options` in the AutoRAG search parameter objects. -/
structure RankingOptions where
  score_threshold : Option Rat := none
deriving DecidableEq

/-- `AutoRAGSearchParams` (src/server.ts lines 21-29).  `query` is
`Option String` because the handler passes the client-supplied argument
through without validation, so it may be `undefined`. -/
structure AutoRAGSearchParams where
  query : Option String := none
  rewrite_query : Option Bool := none
  max_num_results : Option Int := none
  ranking_options : Option RankingOptions := none
deriving DecidableEq

/-- `AutoRAGAiSearchParams` (src/server.ts lines 31-40): the search
parameters plus the pagination `cursor`. -/
structure AutoRAGAiSearchParams where
  query : Option String := none
  rewrite_query : Option Bool := none
  max_num_results : Option Int := none
  ranking_options : Option RankingOptions := none
  cursor : Option String := none
deriving DecidableEq

/-- One element of `AutoRAGSearchResponse.data`. -/
structure SearchDataItem where
  file_id : String
  content : String
  score : Rat
  metadata : Option Json := none

/-- `AutoRAGSearchResponse` (src/server.ts lines 42-51). -/
structure AutoRAGSearchResponse where
  object : String
  search_query : String
  data : List SearchDataItem

/-- One element of the `content` array of an AI-search data item. -/
structure AiContentItem where
  id : String
  type : String
  text : String

/-- One element of `AutoRAGAiSearchResponse.data`. -/
structure AiDataItem where
  file_id : String
  filename : String
  score : Rat
  attributes : Option Json := none
  content : List AiContentItem

/-- `AutoRAGAiSearchResponse` (src/server.ts lines 53-70); `next_page`
is `string | null`, modelled as `Option String` with `none` for `null`. -/
structure AutoRAGAiSearchResponse where
  object : String
  search_query : String
  response : String
  data : List AiDataItem
  has_more : Bool
  next_page : Option String

/-- The external AutoRAG binding `env.AI.autorag(env.AUTORAG_NAME)`:
two opaque remote operations that either resolve or reject.  A rejection
is `Except.error msg` where `msg` is the thrown error's message. -/
structure Backend where
  search : AutoRAGSearchParams → Except String AutoRAGSearchResponse
  aiSearch : AutoRAGAiSearchParams → Except String AutoRAGAiSearchResponse

/-- An observable backend invocation (used to state which calls a handler
issued). -/
inductive BackendCall where
  | search (p : AutoRAGSearchParams)
  | aiSearch (p : AutoRAGAiSearchParams)
deriving DecidableEq

/-- One `{ type, text }` content item of a tool result. -/
structure ContentItem where
  type : String
  text : String
deriving DecidableEq

/-- The content payload every tool handler returns:
`{ content: [{ type: 'text', text }] }`. -/
structure ContentPayload where
  content : List ContentItem
deriving DecidableEq

/-- The arguments object of a `tools/call` request, restricted to the
fields the three handlers and the dispatcher actually read.  Absent
fields are `none`; `filters` is kept as an arbitrary JSON value because
the dispatcher only tests its truthiness. -/
structure ToolArgs where
  query : Option String := none
  score_threshold : Option Rat := none
  max_num_results : Option Int := none
  rewrite_query : Option Bool := none
  include_ai_response : Option Bool := none
  cursor : Option String := none
  filters : Option Json := none

/-- JSON encoding of an `AutoRAGSearchResponse` data item (`metadata` is
dropped when absent, as `JSON.stringify` drops `undefined`). -/
def searchDataItemJson (it : SearchDataItem) : Json :=
  .obj ([("file_id", .str it.file_id), ("content", .str it.content),
         ("score", .num it.score)] ++
        (match it.metadata with
         | some m => [("metadata", m)]
         | none => []))

/-- JSON encoding of an `AutoRAGSearchResponse`. -/
def searchResponseJson (r : AutoRAGSearchResponse) : Json :=
  .obj [("object", .str r.object), ("search_query", .str r.search_query),
        ("data", .arr (r.data.map searchDataItemJson))]

/-- JSON encoding of an AI-search data item. -/
def aiDataItemJson (it : AiDataItem) : Json :=
  .obj ([("file_id", .str it.file_id), ("filename", .str it.filename),
         ("score", .num it.score)] ++
        (match it.attributes with
         | some a => [("attributes", a)]
         | none => []) ++
        [("content", .arr (it.content.map fun c =>
            .obj [("id", .str c.id), ("type", .str c.type),
                  ("text", .str c.text)]))])

/-- `string | null` rendered into JSON. -/
def jsonOfOptStr : Option String → Json
  | some s => .str s
  | none => .null

/-- The `nextCursor` property of the AI-search output:
`nextCursor: result.next_page || undefined` followed by
`JSON.stringify` dropping `undefined`-valued keys — so the field exists
iff `next_page` is truthy (non-null and non-empty). -/
def nextCursorField : Option String → List (String × Json)
  | some s => if s == "" then [] else [("nextCursor", .str s)]
  | none => []

/-- The fields of `responseToReturn` in the `autorag_ai_search` handler
(src/server.ts lines 437-451): when `include_ai_response ?? false` is
true, the whole backend response is spread (including `response`) and
`nextCursor` appended; otherwise the response is rebuilt without the
`response` field. -/
def aiOutputFields (r : AutoRAGAiSearchResponse)
    (include_ai_response : Option Bool) : List (String × Json) :=
  if include_ai_response.getD false then
    [("object", .str r.object), ("search_query", .str r.search_query),
     ("response", .str r.response),
     ("data", .arr (r.data.map aiDataItemJson)),
     ("has_more", .bool r.has_more),
     ("next_page", jsonOfOptStr r.next_page)] ++ nextCursorField r.next_page
  else
    [("object", .str r.object), ("search_query", .str r.search_query),
     ("data", .arr (r.data.map aiDataItemJson)),
     ("has_more", .bool r.has_more),
     ("next_page", jsonOfOptStr r.next_page)] ++ nextCursorField r.next_page

/-- The `searchParams` built by the `autorag_basic_search` handler
(src/server.ts lines 324-333): rewriting is hard-disabled and the score
threshold defaults to `0.5`; `max_num_results` is set only when the
argument was supplied. -/
def basicSearchParams (args : ToolArgs) : AutoRAGSearchParams :=
  { query := args.query
    rewrite_query := some false
    max_num_results := args.max_num_results
    ranking_options :=
      some { score_threshold := some (args.score_threshold.getD 0.5) } }

/-- The `searchParams` built by the `autorag_rewrite_search` handler
(src/server.ts lines 371-380): rewriting defaults to `true`. -/
def rewriteSearchParams (args : ToolArgs) : AutoRAGSearchParams :=
  { query := args.query
    rewrite_query := some (args.rewrite_query.getD true)
    max_num_results := args.max_num_results
    ranking_options :=
      some { score_threshold := some (args.score_threshold.getD 0.5) } }

/-- The `searchParams` built by the `autorag_ai_search` handler
(src/server.ts lines 420-432): rewriting defaults to `true` and the
`cursor` is set only when supplied. -/
def aiSearchParams (args : ToolArgs) : AutoRAGAiSearchParams :=
  { query := args.query
    rewrite_query := some (args.rewrite_query.getD true)
    max_num_results := args.max_num_results
    ranking_options :=
      some { score_threshold := some (args.score_threshold.getD 0.5) }
    cursor := args.cursor }

/-- The `autorag_basic_search` handler (src/server.ts lines 322-355).
Besides the payload, it reports the backend calls made. -/
def basicSearchHandler (b : Backend) (args : ToolArgs) :
    ContentPayload × List BackendCall :=
  let p := basicSearchParams args
  match b.search p with
  | .ok r =>
      (⟨[⟨"text", jsonStringify (searchResponseJson r)⟩]⟩, [.search p])
  | .error e =>
      (⟨[⟨"text", "Error searching AutoRAG: " ++ e⟩]⟩, [.search p])

/-- The `autorag_rewrite_search` handler (src/server.ts lines 368-403). -/
def rewriteSearchHandler (b : Backend) (args : ToolArgs) :
    ContentPayload × List BackendCall :=
  let p := rewriteSearchParams args
  match b.search p with
  | .ok r =>
      (⟨[⟨"text", jsonStringify (searchResponseJson r)⟩]⟩, [.search p])
  | .error e =>
      (⟨[⟨"text", "Error in AutoRAG rewrite search: " ++ e⟩]⟩, [.search p])

/-- The `autorag_ai_search` handler (src/server.ts lines 418-471). -/
def aiSearchHandler (b : Backend) (args : ToolArgs) :
    ContentPayload × List BackendCall :=
  let p := aiSearchParams args
  match b.aiSearch p with
  | .ok r =>
      (⟨[⟨"text", jsonStringify
            (.obj (aiOutputFields r args.include_ai_response))⟩]⟩,
       [.aiSearch p])
  | .error e =>
      (⟨[⟨"text", "Error in AutoRAG AI search: " ++ e⟩]⟩, [.aiSearch p])

/-- A JSON-RPC id: string, number, or `null`; an absent id is modelled as
`Option.none` at the use sites. -/
inductive RpcId where
  | str (s : String)
  | num (n : Int)
  | null
deriving DecidableEq

/-- The `error` member of a JSON-RPC response. -/
structure RpcError where
  code : Int
  message : String
  data : Option Json := none

/-- A JSON-RPC response as `handleRequest` builds it.  The code always
sets exactly one of `result` / `error`. -/
structure JsonRpcResponse where
  jsonrpc : String
  id : Option RpcId
  result : Option Json := none
  error : Option RpcError := none

/-- The `params` member of a `tools/call` request, restricted to the two
properties the dispatcher destructures (`name`, `arguments`). -/
structure RequestParams where
  name : Option String := none
  arguments : Option ToolArgs := none

/-- A JSON-RPC request (src/server.ts lines 72-77).  `method` is declared
`string` in the interface but the dispatcher defends against a falsy
value, so it is `Option String` here (`none` = absent). -/
structure JsonRpcRequest where
  id : Option RpcId := none
  method : Option String := none
  params : Option RequestParams := none

/-- A registry entry as stored by `WorkersMcpServer.addTool`: description,
compiled input schema, and the handler. -/
structure ToolEntry where
  description : String
  inputSchema : Json
  handler : ToolArgs → ContentPayload × List BackendCall

/-- The zod descriptor of `autorag_basic_search` (src/server.ts lines
317-321).  `.describe` after `.optional()` annotates the wrapper, so the
inner primitive carries no description. -/
def basicSearchZod : ZodSchema :=
  .zObject
    [("query", .zString (some "The search query to find relevant documents")),
     ("score_threshold",
      .zOptional (some "Minimum similarity score threshold (0.0 to 1.0, default: 0.5)")
        (.zNumber none)),
     ("max_num_results",
      .zOptional (some "Maximum number of results to return") (.zNumber none))]

/-- The zod descriptor of `autorag_rewrite_search` (src/server.ts lines
362-367). -/
def rewriteSearchZod : ZodSchema :=
  .zObject
    [("query", .zString (some "The search query to find relevant documents with AI query rewriting")),
     ("score_threshold",
      .zOptional (some "Minimum similarity score threshold (0.0 to 1.0, default: 0.5)")
        (.zNumber none)),
     ("max_num_results",
      .zOptional (some "Maximum number of results to return") (.zNumber none)),
     ("rewrite_query",
      .zOptional (some "Whether to rewrite the query using AI (default: true)")
        (.zBoolean none))]

/-- The zod descriptor of `autorag_ai_search` (src/server.ts lines
410-417). -/
def aiSearchZod : ZodSchema :=
  .zObject
    [("query", .zString (some "The search query to find relevant documents with AI query rewriting")),
     ("score_threshold",
      .zOptional (some "Minimum similarity score threshold (0.0 to 1.0, default: 0.5)")
        (.zNumber none)),
     ("max_num_results",
      .zOptional (some "Maximum number of results to return") (.zNumber none)),
     ("rewrite_query",
      .zOptional (some "Whether to rewrite the query for better semantic matching (default: true)")
        (.zBoolean none)),
     ("include_ai_response",
      .zOptional (some "Whether to include the AI-generated response in the output (default: false)")
        (.zBoolean none)),
     ("cursor",
      .zOptional (some "Pagination cursor from previous response to fetch next page of results")
        (.zString none))]

/-- The registry `createServer` builds (src/server.ts lines 302-475):
three tools, in registration order, each with its compiled schema and
handler closed over the backend. -/
def serverTools (b : Backend) : List (String × ToolEntry) :=
  [("autorag_basic_search",
    { description := "Basic search for documents in Cloudflare AutoRAG without query rewriting or answer generation"
      inputSchema := zodToJsonSchema basicSearchZod
      handler := basicSearchHandler b }),
   ("autorag_rewrite_search",
    { description := "Search for documents in Cloudflare AutoRAG with AI query rewriting but NO answer generation (returns document chunks only)"
      inputSchema := zodToJsonSchema rewriteSearchZod
      handler := rewriteSearchHandler b }),
   ("autorag_ai_search",
    { description := "Search documents in Cloudflare AutoRAG with AI query rewriting and optional AI-generated response. Returns document chunks and optionally AI answer."
      inputSchema := zodToJsonSchema aiSearchZod
      handler := aiSearchHandler b })]

/-- `this.tools.get(name)` on the registry (insertion-ordered map with
distinct keys, so an association-list lookup). -/
def findTool : List (String × ToolEntry) → String → Option ToolEntry
  | [], _ => none
  | (k, v) :: rest, n => if n = k then some v else findTool rest n

/-- `this.tools.get(name)` when `name` itself may be `undefined` (an
undefined key is never present in the map). -/
def lookupTool (tools : List (String × ToolEntry)) : Option String → Option ToolEntry
  | some n => findTool tools n
  | none => none

/-- Template-literal interpolation of a possibly-undefined name, as in
``​`Tool '${name}' not found`​``. -/
def jsNameString : Option String → String
  | some n => n
  | none => "undefined"

/-- The dispatcher's `args && args.filters` test. -/
def argsHasTruthyFilters : Option ToolArgs → Bool
  | some a => (a.filters.map jsonTruthy).getD false
  | none => false

/-- The `data` string of the `-32602` filters rejection. -/
def filtersErrData : String :=
  "Metadata filtering is not supported in Workers bindings. Please use the REST API for filtered queries. See: https://developers.cloudflare.com/autorag/usage/rest-api/"

/-- Modelled from the JS runtime: the `TypeError` message thrown by
`const \x7b name, arguments: args \x7d = params;` when `params` is
`undefined`, caught by the dispatcher's top-level `catch`. -/
def destructureParamsMsg : String :=
  "Cannot destructure property \x27name\x27 of \x27params\x27 as it is undefined."

/-- Modelled from the JS runtime: the `TypeError` rejection message when a
handler destructures its (undefined) arguments object. -/
def destructureArgsMsg : String :=
  "Cannot destructure property \x27query\x27 of \x27undefined\x27 as it is undefined."

/-- Wrap a handler's `ContentPayload` as the JSON-RPC `result` value. -/
def contentPayloadToJson (c : ContentPayload) : Json :=
  .obj [("content", .arr (c.content.map fun it =>
      .obj [("type", .str it.type), ("text", .str it.text)]))]

/-- The `initialize` result (src/server.ts lines 206-215). -/
def initResultJson : Json :=
  .obj [("protocolVersion", .str "2024-11-05"),
        ("capabilities", .obj [("tools", .obj []), ("logging", .obj [])]),
        ("serverInfo",
         .obj [("name", .str "cloudflare-autorag-mcp"),
               ("version", .str "1.2.0")])]

/-- The `tools/list` result (src/server.ts lines 217-228). -/
def toolsListJson (tools : List (String × ToolEntry)) : Json :=
  .obj [("tools", .arr (tools.map fun t =>
      .obj [("name", .str t.1), ("description", .str t.2.description),
            ("inputSchema", t.2.inputSchema)]))]

/-- The default-arm error message (src/server.ts line 285):
``method ? `Method '${method}' not supported` : 'Method is required'``,
where both an absent and an empty `method` are falsy. -/
def defaultMethodMessage : Option String → String
  | none => "Method is required"
  | some "" => "Method is required"
  | some s => "Method \x27" ++ s ++ "\x27 not supported"

/-- `WorkersMcpServer.handleRequest` (src/server.ts lines 201-299) over an
arbitrary registry.  The try/catch is compiled away: the only statements
inside the `try` that can throw are the `params` destructuring (when
`params` is `undefined`) and the awaited handler call (which rejects only
when its own argument destructuring fails, since every handler catches
backend errors internally); both throw sites are mapped to the `-32603`
response the `catch` block would build.  Alongside the response, the list
of backend calls made during dispatch is returned. -/
def handleRequestWith (tools : List (String × ToolEntry))
    (req : JsonRpcRequest) : JsonRpcResponse × List BackendCall :=
  match req.method with
  | some "initialize" =>
      ({ jsonrpc := "2.0", id := req.id, result := some initResultJson }, [])
  | some "tools/list" =>
      ({ jsonrpc := "2.0", id := req.id, result := some (toolsListJson tools) }, [])
  | some "tools/call" =>
      match req.params with
      | none =>
          ({ jsonrpc := "2.0", id := req.id,
             error := some { code := -32603,
                             message := "Internal error: " ++ destructureParamsMsg } }, [])
      | some p =>
          match lookupTool tools p.name with
          | none =>
              ({ jsonrpc := "2.0", id := req.id,
                 error := some { code := -32601,
                                 message := "Tool \x27" ++ jsNameString p.name ++ "\x27 not found" } }, [])
          | some tool =>
              if argsHasTruthyFilters p.arguments then
                ({ jsonrpc := "2.0", id := req.id,
                   error := some { code := -32602, message := "Invalid params",
                                   data := some (.str filtersErrData) } }, [])
              else
                match p.arguments with
                | none =>
                    ({ jsonrpc := "2.0", id := req.id,
                       error := some { code := -32603,
                                       message := "Internal error: " ++ destructureArgsMsg } }, [])
                | some args =>
                    ({ jsonrpc := "2.0", id := req.id,
                       result := some (contentPayloadToJson (tool.handler args).1) },
                     (tool.handler args).2)
  | some "resources/list" =>
      ({ jsonrpc := "2.0", id := req.id,
         result := some (.obj [("resources", .arr [])]) }, [])
  | some "prompts/list" =>
      ({ jsonrpc := "2.0", id := req.id,
         result := some (.obj [("prompts", .arr [])]) }, [])
  | m =>
      ({ jsonrpc := "2.0", id := req.id,
         error := some { code := -32601,
                         message := defaultMethodMessage m } }, [])

/-- Dispatch against the server `createServer env` builds. -/
def handleRequest (b : Backend) (req : JsonRpcRequest) :
    JsonRpcResponse × List BackendCall :=
  handleRequestWith (serverTools b) req

/-- A backend whose every call rejects, for concrete witnesses. -/
def errBackend : Backend where
  search := fun _ => .error "backend down"
  aiSearch := fun _ => .error "backend down"

/-- A sample successful AI-search backend response. -/
def sampleAiResponse : AutoRAGAiSearchResponse :=
  { object := "vector_store.search_results.page", search_query := "q",
    response := "generated answer", data := [], has_more := true,
    next_page := some "cursor-2" }

/-- A backend whose every call succeeds with fixed responses. -/
def okBackend : Backend where
  search := fun _ =>
    .ok { object := "vector_store.search_results.page",
          search_query := "q", data := [] }
  aiSearch := fun _ => .ok sampleAiResponse

/-- A backend AI-search response whose `next_page` is the empty string:
non-null, but falsy in JavaScript. -/
def emptyPageAiResponse : AutoRAGAiSearchResponse :=
  { object := "vector_store.search_results.page", search_query := "q",
    response := "ans", data := [], has_more := true, next_page := some "" }

/-- Every arm of the dispatcher builds its response with `jsonrpc: '2.0'`
and the request's own `id`. -/
theorem handleRequestWith_id (tools : List (String × ToolEntry))
    (req : JsonRpcRequest) :
    (handleRequestWith tools req).1.id = req.id ∧
    (handleRequestWith tools req).1.jsonrpc = "2.0" := by
  unfold handleRequestWith
  repeat' split
  all_goals exact ⟨rfl, rfl⟩

/-- C7: for every request, the response produced by `handleRequest`
carries the same `id` value as the request — including when the id is
`null` (`RpcId.null`) or omitted (`none`) — on every dispatch path. -/
theorem response_id_echo (b : Backend) (req : JsonRpcRequest) :
    (handleRequest b req).1.id = req.id :=
  (handleRequestWith_id (serverTools b) req).1


/-- C1: a `tools/call` request whose `params.name` is not one of the three
registered tool names yields an error with code `-32601` whose message
names the unknown tool, no `result`, and no backend call. -/
theorem tools_call_unknown_tool (b : Backend) (req : JsonRpcRequest)
    (p : RequestParams) (n : String)
    (hm : req.method = some "tools/call") (hp : req.params = some p)
    (hn : p.name = some n)
    (h1 : n ≠ "autorag_basic_search") (h2 : n ≠ "autorag_rewrite_search")
    (h3 : n ≠ "autorag_ai_search") :
    (handleRequest b req).1.error =
      some { code := -32601, message := "Tool \x27" ++ n ++ "\x27 not found",
             data := none } ∧
    (handleRequest b req).1.result = none ∧
    (handleRequest b req).2 = [] := by
  rcases req with ⟨id, method, params⟩
  rcases p with ⟨name, argsOpt⟩
  simp only at hm hp hn
  subst hm hp hn
  simp [handleRequest, handleRequestWith, lookupTool, findTool, serverTools,
        jsNameString, h1, h2, h3]

/-- C1 witness: the unknown tool name `nope` is rejected with `-32601`. -/
theorem tools_call_unknown_tool_witness :
    (handleRequest errBackend
        { id := some (.num 1), method := some "tools/call",
          params := some { name := some "nope" } }).1.error =
      some { code := -32601, message := "Tool \x27" ++ "nope" ++ "\x27 not found",
             data := none } ∧
    (handleRequest errBackend
        { id := some (.num 1), method := some "tools/call",
          params := some { name := some "nope" } }).1.result = none ∧
    (handleRequest errBackend
        { id := some (.num 1), method := some "tools/call",
          params := some { name := some "nope" } }).2 = [] :=
  tools_call_unknown_tool errBackend _ _ "nope" rfl rfl rfl
    (by decide) (by decide) (by decide)

/-- C8: a request whose method is none of the five supported ones gets an
error with code `-32601`; the message names the unsupported method, and
is `Method is required` when the method field is absent (or falsy, i.e.
the empty string).  No result and no backend call is produced. -/
theorem unknown_method_error (b : Backend) (req : JsonRpcRequest)
    (h : ∀ m, req.method = some m →
      m ∉ (["initialize", "tools/list", "tools/call",
            "resources/list", "prompts/list"] : List String)) :
    (handleRequest b req).1.result = none ∧
    (handleRequest b req).2 = [] ∧
    (handleRequest b req).1.error =
      some { code := -32601, message := defaultMethodMessage req.method,
             data := none } ∧
    (req.method = none → defaultMethodMessage req.method = "Method is required") ∧
    (req.method = some "" → defaultMethodMessage req.method = "Method is required") ∧
    (∀ m, req.method = some m → m ≠ "" →
      defaultMethodMessage req.method = "Method \x27" ++ m ++ "\x27 not supported") := by
  rcases req with ⟨id, method, params⟩
  simp only at h ⊢
  unfold handleRequest handleRequestWith
  cases method with
  | none => exact ⟨rfl, rfl, rfl, fun _ => rfl, by simp, by simp⟩
  | some m =>
    have hm := h m rfl
    simp only [List.mem_cons, List.not_mem_nil, or_false, not_or] at hm
    obtain ⟨hm1, hm2, hm3, hm4, hm5⟩ := hm
    refine ⟨?_, ?_, ?_, by simp, ?_, ?_⟩
    · split <;> simp_all
    · split <;> simp_all
    · split <;> simp_all
    · intro hmm
      simp only [Option.some.injEq] at hmm
      subst hmm
      rfl
    · intro s hs hne
      simp only [Option.some.injEq] at hs
      subst hs
      unfold defaultMethodMessage
      split
      · simp_all
      · simp_all
      · rename_i heq
        injection heq with h
        subst h
        rfl

/-- C8 witness: the unknown method `foo/bar` is rejected with `-32601`
and a message naming it. -/
theorem unknown_method_error_witness :
    (handleRequest errBackend
        { id := some (.str "a"), method := some "foo/bar" }).1.result = none ∧
    (handleRequest errBackend
        { id := some (.str "a"), method := some "foo/bar" }).2 = [] ∧
    (handleRequest errBackend
        { id := some (.str "a"), method := some "foo/bar" }).1.error =
      some { code := -32601,
             message := defaultMethodMessage (some "foo/bar"), data := none } ∧
    ((some "foo/bar" : Option String) = none →
      defaultMethodMessage (some "foo/bar") = "Method is required") ∧
    ((some "foo/bar" : Option String) = some "" →
      defaultMethodMessage (some "foo/bar") = "Method is required") ∧
    (∀ m, (some "foo/bar" : Option String) = some m → m ≠ "" →
      defaultMethodMessage (some "foo/bar") =
        "Method \x27" ++ m ++ "\x27 not supported") :=
  unknown_method_error errBackend
    { id := some (.str "a"), method := some "foo/bar" }
    (by intro m hm; simp only [Option.some.injEq] at hm; subst hm; decide)

/-- C9: a `tools/call` naming a registered tool whose arguments carry a
truthy `filters` value is rejected with `-32602` / `Invalid params`
before the handler runs, so no backend call is made. -/
theorem filters_rejected (b : Backend) (id : Option RpcId) (n : String)
    (args : ToolArgs) (t : ToolEntry)
    (hfound : findTool (serverTools b) n = some t)
    (hfilters : argsHasTruthyFilters (some args) = true) :
    handleRequest b { id := id, method := some "tools/call",
                      params := some { name := some n, arguments := some args } } =
      ({ jsonrpc := "2.0", id := id, result := none,
         error := some { code := -32602, message := "Invalid params",
                         data := some (.str filtersErrData) } }, []) := by
  unfold handleRequest handleRequestWith
  simp only [lookupTool, hfound, hfilters]
  rfl

/-- C9 witness: calling `autorag_basic_search` with a (truthy, object)
`filters` argument is rejected and the backend is never called. -/
theorem filters_rejected_witness :
    handleRequest errBackend
        { id := some (.num 2), method := some "tools/call",
          params := some { name := some "autorag_basic_search",
                           arguments := some { filters := some (.obj []) } } } =
      ({ jsonrpc := "2.0", id := some (.num 2), result := none,
         error := some { code := -32602, message := "Invalid params",
                         data := some (.str filtersErrData) } }, []) :=
  filters_rejected errBackend (some (.num 2)) "autorag_basic_search"
    { filters := some (.obj []) } _ rfl rfl

/-- C10: a `tools/call` request with no `params` does not crash: the
destructuring throw is caught at the top level and mapped to a
well-formed response carrying the request's id and error `-32603`
(internal error), not `-32602`; no backend call is made. -/
theorem missing_params_internal_error (b : Backend) (req : JsonRpcRequest)
    (hm : req.method = some "tools/call") (hp : req.params = none) :
    handleRequest b req =
      ({ jsonrpc := "2.0", id := req.id, result := none,
         error := some { code := -32603,
                         message := "Internal error: " ++ destructureParamsMsg,
                         data := none } }, []) := by
  rcases req with ⟨id, method, params⟩
  simp only at hm hp
  subst hm; subst hp
  rfl

/-- C10 witness: `tools/call` with absent params yields the `-32603`
internal-error response with the request's id. -/
theorem missing_params_internal_error_witness :
    handleRequest errBackend { id := some .null, method := some "tools/call" } =
      ({ jsonrpc := "2.0", id := some .null, result := none,
         error := some { code := -32603,
                         message := "Internal error: " ++ destructureParamsMsg,
                         data := none } }, []) :=
  missing_params_internal_error errBackend
    { id := some .null, method := some "tools/call" } rfl rfl

/-- C2: each of the three tool handlers catches a backend rejection itself
and returns a well-formed payload with a single text item describing the
failure; and whenever the dispatcher reaches a registered handler, it
wraps the handler's payload as a successful `result` with no error — so a
backend failure never becomes a JSON-RPC-level error object. -/
theorem handler_backend_error (b : Backend) (args : ToolArgs) :
    (∀ e, b.search (basicSearchParams args) = Except.error e →
      (basicSearchHandler b args).1 =
        ⟨[⟨"text", "Error searching AutoRAG: " ++ e⟩]⟩) ∧
    (∀ e, b.search (rewriteSearchParams args) = Except.error e →
      (rewriteSearchHandler b args).1 =
        ⟨[⟨"text", "Error in AutoRAG rewrite search: " ++ e⟩]⟩) ∧
    (∀ e, b.aiSearch (aiSearchParams args) = Except.error e →
      (aiSearchHandler b args).1 =
        ⟨[⟨"text", "Error in AutoRAG AI search: " ++ e⟩]⟩) ∧
    (∀ (id : Option RpcId) (n : String) (t : ToolEntry),
      findTool (serverTools b) n = some t →
      argsHasTruthyFilters (some args) = false →
      (handleRequest b { id := id, method := some "tools/call",
                         params := some { name := some n,
                                          arguments := some args } }).1 =
        { jsonrpc := "2.0", id := id,
          result := some (contentPayloadToJson (t.handler args).1),
          error := none }) := by
  refine ⟨?_, ?_, ?_, ?_⟩
  · intro e he
    simp [basicSearchHandler, he]
  · intro e he
    simp [rewriteSearchHandler, he]
  · intro e he
    simp [aiSearchHandler, he]
  · intro id n t hfound hfilters
    unfold handleRequest handleRequestWith
    simp only [lookupTool, hfound, hfilters]
    simp

/-- C2 witness: with a backend that rejects, every handler returns the
describing text payload and the dispatcher wraps the AI handler's payload
as a result. -/
theorem handler_backend_error_witness :
    (basicSearchHandler errBackend {}).1 =
      ⟨[⟨"text", "Error searching AutoRAG: " ++ "backend down"⟩]⟩ ∧
    (rewriteSearchHandler errBackend {}).1 =
      ⟨[⟨"text", "Error in AutoRAG rewrite search: " ++ "backend down"⟩]⟩ ∧
    (aiSearchHandler errBackend {}).1 =
      ⟨[⟨"text", "Error in AutoRAG AI search: " ++ "backend down"⟩]⟩ ∧
    (handleRequest errBackend
        { id := some (.num 3), method := some "tools/call",
          params := some { name := some "autorag_ai_search",
                           arguments := some {} } }).1 =
      { jsonrpc := "2.0", id := some (.num 3),
        result := some (contentPayloadToJson (aiSearchHandler errBackend {}).1),
        error := none } :=
  ⟨(handler_backend_error errBackend {}).1 "backend down" rfl,
   (handler_backend_error errBackend {}).2.1 "backend down" rfl,
   (handler_backend_error errBackend {}).2.2.1 "backend down" rfl,
   (handler_backend_error errBackend {}).2.2.2 (some (.num 3))
     "autorag_ai_search" _ rfl rfl⟩

/-- C3: the plain-search tool invoked with only a query issues exactly one
backend `search` call with `rewrite_query: false` and the default
`score_threshold: 0.5`; the rewrite and AI tools issue their backend call
with `rewrite_query: true` when the argument is absent, and with the
supplied value when present. -/
theorem backend_call_defaults (b : Backend) (args : ToolArgs) (q : String) :
    (basicSearchHandler b { query := some q }).2 =
      [BackendCall.search
        { query := some q, rewrite_query := some false,
          max_num_results := none,
          ranking_options := some { score_threshold := some 0.5 } }] ∧
    (rewriteSearchHandler b args).2 =
      [BackendCall.search (rewriteSearchParams args)] ∧
    (args.rewrite_query = none →
      (rewriteSearchParams args).rewrite_query = some true) ∧
    (∀ v, args.rewrite_query = some v →
      (rewriteSearchParams args).rewrite_query = some v) ∧
    (aiSearchHandler b args).2 =
      [BackendCall.aiSearch (aiSearchParams args)] ∧
    (args.rewrite_query = none →
      (aiSearchParams args).rewrite_query = some true) ∧
    (∀ v, args.rewrite_query = some v →
      (aiSearchParams args).rewrite_query = some v) := by
  refine ⟨?_, ?_, ?_, ?_, ?_, ?_, ?_⟩
  · cases h : b.search (basicSearchParams { query := some q }) <;>
      simp [basicSearchHandler, h] <;> rfl
  · cases h : b.search (rewriteSearchParams args) <;>
      simp [rewriteSearchHandler, h]
  · intro h; simp [rewriteSearchParams, h]
  · intro v h; simp [rewriteSearchParams, h]
  · cases h : b.aiSearch (aiSearchParams args) <;> simp [aiSearchHandler, h]
  · intro h; simp [aiSearchParams, h]
  · intro v h; simp [aiSearchParams, h]

/-- C3 witness: concrete defaults — an explicit `rewrite_query: false`
passes through on both rewriting tools, and a bare query on the basic
tool yields the defaulted backend call. -/
theorem backend_call_defaults_witness :
    (basicSearchHandler errBackend { query := some "x" }).2 =
      [BackendCall.search
        { query := some "x", rewrite_query := some false,
          max_num_results := none,
          ranking_options := some { score_threshold := some 0.5 } }] ∧
    (rewriteSearchParams { rewrite_query := some false }).rewrite_query =
      some false ∧
    (aiSearchParams { rewrite_query := some false }).rewrite_query =
      some false :=
  ⟨(backend_call_defaults errBackend { rewrite_query := some false } "x").1,
   (backend_call_defaults errBackend
      { rewrite_query := some false } "x").2.2.2.1 false rfl,
   (backend_call_defaults errBackend
      { rewrite_query := some false } "x").2.2.2.2.2.2 false rfl⟩

/-- The tail `nextCursorField` never yields a `response` key. -/
theorem nextCursorField_lookup_response (np : Option String) :
    (nextCursorField np).lookup "response" = none := by
  cases np with
  | none => rfl
  | some s =>
    unfold nextCursorField
    repeat' split
    all_goals rfl

/-- Looking up `nextCursor` in the AI-search output reduces to the
`nextCursorField` tail: no other field uses that key. -/
theorem aiOutputFields_lookup_nextCursor (r : AutoRAGAiSearchResponse)
    (inc : Option Bool) :
    (aiOutputFields r inc).lookup "nextCursor" =
      (nextCursorField r.next_page).lookup "nextCursor" := by
  unfold aiOutputFields
  cases hflag : inc.getD false <;> rfl

/-- C4: the AI-search output payload omits the backend's generated-answer
field `response` when `include_ai_response` is absent or `false`, and
contains it (with the backend's value) when `true`; on a successful
backend call the handler serializes exactly this field list. -/
theorem ai_response_inclusion (b : Backend) (args : ToolArgs)
    (r : AutoRAGAiSearchResponse) :
    ((args.include_ai_response = none ∨ args.include_ai_response = some false) →
      (aiOutputFields r args.include_ai_response).lookup "response" = none) ∧
    (args.include_ai_response = some true →
      (aiOutputFields r args.include_ai_response).lookup "response" =
        some (Json.str r.response)) ∧
    (b.aiSearch (aiSearchParams args) = Except.ok r →
      (aiSearchHandler b args).1 =
        ⟨[⟨"text",
           jsonStringify (.obj (aiOutputFields r args.include_ai_response))⟩]⟩) := by
  refine ⟨?_, ?_, ?_⟩
  · intro h
    have hflag : args.include_ai_response.getD false = false := by
      rcases h with h | h <;> simp [h]
    unfold aiOutputFields
    rw [hflag]
    show (nextCursorField r.next_page).lookup "response" = none
    exact nextCursorField_lookup_response r.next_page
  · intro h
    have hflag : args.include_ai_response.getD false = true := by simp [h]
    unfold aiOutputFields
    rw [hflag]
    rfl
  · intro h
    simp [aiSearchHandler, h]


/-- C4 witness: with `include_ai_response: true` the payload carries the
generated answer; with the flag absent it does not. -/
theorem ai_response_inclusion_witness :
    (aiOutputFields sampleAiResponse (some true)).lookup "response" =
      some (Json.str sampleAiResponse.response) ∧
    (aiSearchHandler okBackend { include_ai_response := some true }).1 =
      ⟨[⟨"text",
         jsonStringify (.obj (aiOutputFields sampleAiResponse (some true)))⟩]⟩ ∧
    (aiOutputFields sampleAiResponse none).lookup "response" = none :=
  ⟨(ai_response_inclusion okBackend { include_ai_response := some true }
      sampleAiResponse).2.1 rfl,
   (ai_response_inclusion okBackend { include_ai_response := some true }
      sampleAiResponse).2.2 rfl,
   (ai_response_inclusion okBackend {} sampleAiResponse).1 (Or.inl rfl)⟩


/-- C5 counterexample: this backend response has a non-null `next_page`
(the empty string), yet the serialized output payload contains no
`nextCursor` field in either include mode — `result.next_page ||
undefined` treats the falsy empty string like null. -/
theorem next_cursor_counterexample :
    emptyPageAiResponse.next_page = some "" ∧
    (aiOutputFields emptyPageAiResponse none).lookup "nextCursor" = none ∧
    (aiOutputFields emptyPageAiResponse (some true)).lookup "nextCursor" =
      none :=
  ⟨rfl, rfl, rfl⟩

/-- C5 (amended): a `cursor` argument passes through unmodified to the
backend `aiSearch` call, and the output payload contains `nextCursor`
equal to the backend's `next_page` whenever `next_page` is non-null and
non-empty (truthy); when `next_page` is null or the empty string the
`nextCursor` field is omitted. -/
theorem ai_cursor_passthrough (args : ToolArgs) (c : String)
    (r : AutoRAGAiSearchResponse) (inc : Option Bool) :
    (args.cursor = some c → (aiSearchParams args).cursor = some c) ∧
    (∀ s, r.next_page = some s → s ≠ "" →
      (aiOutputFields r inc).lookup "nextCursor" = some (Json.str s)) ∧
    ((r.next_page = none ∨ r.next_page = some "") →
      (aiOutputFields r inc).lookup "nextCursor" = none) := by
  refine ⟨?_, ?_, ?_⟩
  · intro h
    simp [aiSearchParams, h]
  · intro s hs hne
    rw [aiOutputFields_lookup_nextCursor, hs]
    have hbeq : (s == "") = false := beq_eq_false_iff_ne.mpr hne
    simp only [nextCursorField, hbeq]
    rfl
  · intro h
    rcases h with h | h <;> rw [aiOutputFields_lookup_nextCursor, h] <;> rfl

/-- C5 witness: a concrete cursor passes through, and the sample response
with `next_page: "cursor-2"` yields `nextCursor: "cursor-2"`. -/
theorem ai_cursor_passthrough_witness :
    (aiSearchParams { cursor := some "page-3" }).cursor = some "page-3" ∧
    (aiOutputFields sampleAiResponse none).lookup "nextCursor" =
      some (Json.str "cursor-2") ∧
    (aiOutputFields emptyPageAiResponse (some false)).lookup "nextCursor" =
      none :=
  ⟨(ai_cursor_passthrough { cursor := some "page-3" } "page-3"
      sampleAiResponse none).1 rfl,
   (ai_cursor_passthrough { cursor := some "page-3" } "page-3"
      sampleAiResponse none).2.1 "cursor-2" rfl (by decide),
   (ai_cursor_passthrough { cursor := some "page-3" } "page-3"
      emptyPageAiResponse (some false)).2.2 (Or.inr rfl)⟩

/-- The `required` component of `compileFields` on a cons: the key is
prepended exactly when the field's shape pushes to `required`. -/
theorem compileFields_required_cons (key : String) (v : ZodSchema)
    (rest : List (String × ZodSchema)) :
    (compileFields ((key, v) :: rest)).2 =
      if pushesRequired v then key :: (compileFields rest).2
      else (compileFields rest).2 := by
  cases v with
  | zOptional d inner => cases inner <;> rfl
  | zString d => rfl
  | zNumber d => rfl
  | zBoolean d => rfl
  | zRecord d => rfl
  | zObject s => rfl
  | zUnion o => rfl

/-- Every name in the compiled `required` list is one of the shape's
field names. -/
theorem compileFields_required_subset (shape : List (String × ZodSchema)) :
    ∀ x, x ∈ (compileFields shape).2 → x ∈ shape.map Prod.fst := by
  induction shape with
  | nil =>
    intro x hx
    cases hx
  | cons hd tl ih =>
    obtain ⟨k0, v0⟩ := hd
    intro x hx
    rw [compileFields_required_cons] at hx
    simp only [List.map_cons, List.mem_cons]
    cases hpr : pushesRequired v0 <;> rw [hpr] at hx
    · exact Or.inr (ih x hx)
    · rcases List.mem_cons.mp hx with h | h
      · exact Or.inl h
      · exact Or.inr (ih x h)

/-- A field whose shape pushes to `required` does end up in the compiled
`required` list. -/
theorem mem_required_of_pushes (shape : List (String × ZodSchema))
    (key : String) (v : ZodSchema) (hmem : (key, v) ∈ shape)
    (hreq : pushesRequired v = true) :
    key ∈ (compileFields shape).2 := by
  induction shape with
  | nil => cases hmem
  | cons hd tl ih =>
    obtain ⟨k0, v0⟩ := hd
    rw [compileFields_required_cons]
    rcases List.mem_cons.mp hmem with h | h
    · rw [Prod.mk.injEq] at h
      obtain ⟨hk, hv⟩ := h
      subst hk
      subst hv
      rw [hreq]
      exact List.mem_cons_self _ _
    · have hk := ih h
      cases hpr : pushesRequired v0
      · exact hk
      · exact List.mem_cons_of_mem _ hk

/-- With distinct field names, a field whose shape does not push to
`required` stays out of the compiled `required` list. -/
theorem not_mem_required_of_not_pushes (shape : List (String × ZodSchema))
    (key : String) (v : ZodSchema)
    (hnodup : (shape.map Prod.fst).Nodup) (hmem : (key, v) ∈ shape)
    (hreq : pushesRequired v = false) :
    key ∉ (compileFields shape).2 := by
  induction shape with
  | nil => cases hmem
  | cons hd tl ih =>
    obtain ⟨k0, v0⟩ := hd
    rw [compileFields_required_cons]
    simp only [List.map_cons, List.nodup_cons] at hnodup
    obtain ⟨hk0, hnd⟩ := hnodup
    rcases List.mem_cons.mp hmem with h | h
    · rw [Prod.mk.injEq] at h
      obtain ⟨hk, hv⟩ := h
      subst hk
      subst hv
      rw [hreq]
      intro hc
      exact hk0 (compileFields_required_subset tl key hc)
    · have hknot := ih hnd h
      cases hpr : pushesRequired v0
      · exact hknot
      · intro hc
        have hc' : key = k0 ∨ key ∈ (compileFields tl).2 := List.mem_cons.mp hc
        rcases hc' with hc' | hc'
        · subst hc'
          exact hk0 (List.mem_map_of_mem Prod.fst h)
        · exact hknot hc'

/-- C6 counterexample: the field `u` of this object descriptor is not
wrapped in Optional (it is a bare union shape), yet the compiled schema's
`required` list is empty — the field-loop's `instanceof` chain has no
branch for a union-shaped field, so it is silently skipped.  This
falsifies "a field declared without an Optional wrapper appears in the
compiled schema's required list — for all descriptor shapes". -/
theorem required_union_counterexample :
    (("u", ZodSchema.zUnion []) ∈ [("u", ZodSchema.zUnion [])]) ∧
    (compileFields [("u", ZodSchema.zUnion [])]).2 = [] ∧
    zodToJsonSchema (ZodSchema.zObject [("u", ZodSchema.zUnion [])]) =
      Json.obj [("type", Json.str "object"),
                ("properties", Json.obj []),
                ("required", Json.arr [])] :=
  ⟨List.mem_cons_self _ _, rfl, rfl⟩

/-- C6 (amended): in the compiled schema of an object descriptor with
distinct field names, a field declared without an Optional wrapper
appears in the `required` list whenever its shape is a primitive, record
or nested object (`pushesRequired`) — a bare union-shaped field is
silently skipped instead — and a field declared Optional never appears in
`required`; the compiled object schema carries exactly the `required`
array `compileFields` computes. -/
theorem required_membership (shape : List (String × ZodSchema))
    (key : String) (v : ZodSchema)
    (hnodup : (shape.map Prod.fst).Nodup) (hmem : (key, v) ∈ shape) :
    (pushesRequired v = true → key ∈ (compileFields shape).2) ∧
    ((∃ d inner, v = ZodSchema.zOptional d inner) →
      key ∉ (compileFields shape).2) ∧
    zodToJsonSchema (ZodSchema.zObject shape) =
      Json.obj [("type", Json.str "object"),
                ("properties", Json.obj (compileFields shape).1),
                ("required", Json.arr ((compileFields shape).2.map Json.str))] := by
  refine ⟨?_, ?_, rfl⟩
  · exact fun hreq => mem_required_of_pushes shape key v hmem hreq
  · rintro ⟨d, inner, hv⟩
    subst hv
    exact not_mem_required_of_not_pushes shape key _ hnodup hmem rfl

/-- C6 witness: in a concrete two-field shape, the non-Optional `query`
lands in `required` and the Optional `score_threshold` does not. -/
theorem required_membership_witness :
    "query" ∈ (compileFields [("query", ZodSchema.zString none),
      ("score_threshold",
       ZodSchema.zOptional none (ZodSchema.zNumber none))]).2 ∧
    "score_threshold" ∉ (compileFields [("query", ZodSchema.zString none),
      ("score_threshold",
       ZodSchema.zOptional none (ZodSchema.zNumber none))]).2 :=
  ⟨(required_membership _ "query" (ZodSchema.zString none) (by decide)
      (List.mem_cons_self _ _)).1 rfl,
   (required_membership _ "score_threshold"
      (ZodSchema.zOptional none (ZodSchema.zNumber none)) (by decide)
      (List.mem_cons_of_mem _ (List.mem_cons_self _ _))).2.1
     ⟨none, ZodSchema.zNumber none, rfl⟩⟩
